import Mathlib

/-!
Shallow embedding of the dogfetch fetch-paginate-retry-write pipeline.

Source layout mirrored here:
- internal/fetcher/retry.go : ClassifyError, parseRetryAfter,
  ExponentialBackoff, ShouldRetry, FormatRetryError
- internal/writer/writer.go, json.go, ndjson.go : the two sink variants
  and the format-dispatching constructor
- internal/fetcher/fetcher.go (Fetcher.Fetch, fetchPageWithRetry) : the
  pagination loop with retry, cancellation and the deferred Close.

Conventions:
- Go `time.Duration` is int64 nanoseconds; we model it as `Int` (ns).
- A Go `error` value is `Option GoError` (`none` = nil).
- A Go `*http.Response` is `Option HttpResponse`.
- The Retry-After header string is modelled by which of the two parses
  of parseRetryAfter succeeds on it: `strconv.Atoi` success is
  `.seconds n`, `http.ParseTime` success is `.httpDate t` (an absolute
  time in ns), an empty/missing header is `.absent`, and a header on
  which both parses fail is `.unparseable`. `time.Until t` is `t - now`,
  with `now` passed explicitly.
- Log records are opaque structured documents to the pipeline; `Record`
  stands for them, with an id only so distinct records can be told apart.
-/

namespace Dogfetch

/-- An opaque log record (the pipeline never inspects record contents). -/
structure Record where
  id : Nat
deriving DecidableEq, Repr

/-- A non-nil Go error value; only its message is observable. -/
structure GoError where
  msg : String
deriving DecidableEq, Repr

/-- The Retry-After header of a response, classified by which parse in
parseRetryAfter succeeds on the raw string. -/
inductive RetryAfterHeader where
  | absent
  | seconds (n : Int)
  | httpDate (t : Int)
  | unparseable
deriving DecidableEq, Repr

/-- The parts of a Go http.Response that retry.go reads. -/
structure HttpResponse where
  statusCode : Int
  retryAfter : RetryAfterHeader
deriving DecidableEq, Repr

/-- One second as a Go time.Duration (nanoseconds). -/
def second : Int := 1000000000

/-- retry.go: maxRetries = 3. -/
def maxRetries : Nat := 3

/-- retry.go: baseBackoff = 1 * time.Second. -/
def baseBackoff : Int := second

/-- retry.go: rateLimitWait = 60 * time.Second. -/
def rateLimitWait : Int := 60 * second

/-- retry.go: RetryableError. The zero value of RetryAfter (0 ns) is the
"no minimum delay" state, exactly as in Go. -/
structure RetryableError where
  err : GoError
  retryable : Bool
  retryAfter : Int
deriving DecidableEq, Repr

/-- retry.go parseRetryAfter: empty header gives 0; an Atoi-parseable
header gives seconds; else an http.ParseTime-parseable header gives
time.Until(t) = t - now; else 0. -/
def parseRetryAfter (now : Int) (resp : HttpResponse) : Int :=
  match resp.retryAfter with
  | .absent => 0
  | .seconds n => n * second
  | .httpDate t => t - now
  | .unparseable => 0

/-- retry.go ClassifyError: nil error gives no classification; otherwise a
RetryableError built by the status-code switch (429, the listed 5xx, the
listed 4xx, default with the >= 500 test). `now` is the wall clock used
by the Retry-After date form. -/
def ClassifyError (now : Int) (err : Option GoError) (httpResp : Option HttpResponse) :
    Option RetryableError :=
  match err with
  | none => none
  | some e =>
    match httpResp with
    | none => some { err := e, retryable := true, retryAfter := 0 }
    | some resp =>
      if resp.statusCode = 429 then
        let ra := parseRetryAfter now resp
        let ra := if ra = 0 then rateLimitWait else ra
        some { err := e, retryable := true, retryAfter := ra }
      else if resp.statusCode = 500 ∨ resp.statusCode = 502 ∨
              resp.statusCode = 503 ∨ resp.statusCode = 504 then
        some { err := e, retryable := true, retryAfter := 0 }
      else if resp.statusCode = 400 ∨ resp.statusCode = 401 ∨
              resp.statusCode = 403 ∨ resp.statusCode = 404 then
        some { err := e, retryable := false, retryAfter := 0 }
      else if resp.statusCode ≥ 500 then
        some { err := e, retryable := true, retryAfter := 0 }
      else
        some { err := e, retryable := false, retryAfter := 0 }

/-- retry.go ExponentialBackoff: float64(baseBackoff) * math.Pow(2, attempt),
truncated back to Duration. For every attempt this code path is reached
with (the loop only calls it with attempt < maxRetries = 3) the float64
computation is exact, so the value is baseBackoff * 2 ^ attempt. -/
def ExponentialBackoff (attempt : Nat) : Int :=
  baseBackoff * 2 ^ attempt

/-- retry.go ShouldRetry: nil or non-retryable classification denies the
retry; attempt >= maxRetries denies it; a positive RetryAfter is used as
the delay; otherwise the exponential backoff is. -/
def ShouldRetry (attempt : Nat) (err : Option RetryableError) : Bool × Int :=
  match err with
  | none => (false, 0)
  | some e =>
    if !e.retryable then (false, 0)
    else if attempt ≥ maxRetries then (false, 0)
    else if e.retryAfter > 0 then (true, e.retryAfter)
    else (true, ExponentialBackoff attempt)

/-- retry.go FormatRetryError: the user-facing terminal error. The Go
function formats the wrapped error with fmt; only the message structure
matters here. -/
def FormatRetryError (err : Option GoError) (httpResp : Option HttpResponse) : GoError :=
  let emsg := match err with
    | some e => e.msg
    | none => "%!w(<nil>)"
  match httpResp with
  | none => ⟨"network error: " ++ emsg⟩
  | some resp =>
    if resp.statusCode = 401 then
      ⟨"authentication failed: check DD_API_KEY and DD_APP_KEY"⟩
    else if resp.statusCode = 403 then
      ⟨"permission denied: check your API key has logs_read_data permission"⟩
    else if resp.statusCode = 429 then
      ⟨"rate limit exceeded: " ++ emsg⟩
    else
      ⟨"API error (status " ++ toString resp.statusCode ++ "): " ++ emsg⟩

/-! ## Output sinks (internal/writer)

File-system effects are abstracted by oracles: `writable path` says
whether os.OpenFile with write flags succeeds on `path`, `createOk path`
whether os.Create does. Serialization always succeeds on the in-scope
record type, as encoding/json does on the Log struct, so encoder errors
do not occur in the model. -/

/-- writer/json.go JSONWriter: buffers all logs and the page count.
`hasOutput` is whether the `output io.Writer` field is non-nil (the
WithOutput constructor); otherwise Finalize opens `path`. -/
structure JSONWriter where
  path : String
  hasOutput : Bool
  logs : List Record
  pageCount : Nat
  shouldClose : Bool
deriving DecidableEq, Repr

/-- writer/json.go NewJSONWriter: records the path and always succeeds —
the file itself is only opened inside Finalize. -/
def NewJSONWriter (path : String) : Except GoError JSONWriter :=
  .ok { path := path, hasOutput := false, logs := [], pageCount := 0, shouldClose := true }

/-- writer/json.go NewJSONWriterWithOutput (always succeeds in Go too). -/
def NewJSONWriterWithOutput : JSONWriter :=
  { path := "", hasOutput := true, logs := [], pageCount := 0, shouldClose := false }

/-- writer/json.go JSONWriter.WritePage: append the page's logs, bump the
page count, return nil error (the Go method always returns nil). -/
def JSONWriter.WritePage (w : JSONWriter) (logs : List Record) : JSONWriter :=
  { w with logs := w.logs ++ logs, pageCount := w.pageCount + 1 }

/-- The composite document JSONWriter.Finalize encodes in one write:
the full log collection plus the meta object with total_fetched and
pages. -/
structure CompositeDoc where
  logs : List Record
  totalFetched : Nat
  pages : Nat
deriving DecidableEq, Repr

/-- writer/json.go JSONWriter.Finalize: pick the provided output writer,
or os.Create the path (which can fail); then encode the composite
document in a single write. -/
def JSONWriter.Finalize (createOk : String → Bool) (w : JSONWriter) :
    Except GoError CompositeDoc :=
  if w.hasOutput then
    .ok { logs := w.logs, totalFetched := w.logs.length, pages := w.pageCount }
  else if createOk w.path then
    .ok { logs := w.logs, totalFetched := w.logs.length, pages := w.pageCount }
  else
    .error ⟨"create failed"⟩

/-- writer/json.go JSONWriter.Close: a no-op, always nil. -/
def JSONWriter.Close (w : JSONWriter) : Except GoError JSONWriter :=
  .ok w

/-- writer/ndjson.go NDJSONWriter: `hasCloser` is whether the `closer`
field is non-nil (true exactly for the file-backed constructor),
`fileClosed` the closed-state of that underlying os.File, `written` the
self-contained units already encoded to the destination. -/
structure NDJSONWriter where
  hasCloser : Bool
  shouldClose : Bool
  fileClosed : Bool
  written : List Record
deriving DecidableEq, Repr

/-- os.File.Close on an already-closed file returns this error. -/
def errFileClosed : GoError := ⟨"file already closed"⟩

/-- writer/ndjson.go NewNDJSONWriter: os.OpenFile with O_CREATE|O_WRONLY
and O_APPEND or O_TRUNC per `append`; fails exactly when the path cannot
be opened for writing. The append/truncate distinction is below this
abstraction of the file system. -/
def NewNDJSONWriter (writable : String → Bool) (path : String) (append : Bool) :
    Except GoError NDJSONWriter :=
  if writable path then
    .ok { hasCloser := true, shouldClose := true, fileClosed := false, written := [] }
  else
    .error ⟨"open failed"⟩

/-- writer/ndjson.go NewNDJSONWriterWithOutput: wraps a provided writer,
nothing to close. -/
def NewNDJSONWriterWithOutput : NDJSONWriter :=
  { hasCloser := false, shouldClose := false, fileClosed := false, written := [] }

/-- writer/ndjson.go NDJSONWriter.WritePage: encode each log immediately
as one self-contained unit, in order. -/
def NDJSONWriter.WritePage (w : NDJSONWriter) (logs : List Record) : NDJSONWriter :=
  { w with written := w.written ++ logs }

/-- writer/ndjson.go NDJSONWriter.Finalize: a no-op, always nil. -/
def NDJSONWriter.Finalize (w : NDJSONWriter) : Except GoError NDJSONWriter :=
  .ok w

/-- writer/ndjson.go NDJSONWriter.Close: when shouldClose is set and a
closer exists, delegate to the underlying file's Close — which, as
os.File.Close does, errors if it was already called; otherwise nil. -/
def NDJSONWriter.Close (w : NDJSONWriter) : Except GoError NDJSONWriter :=
  if w.shouldClose && w.hasCloser then
    if w.fileClosed then .error errFileClosed
    else .ok { w with fileClosed := true }
  else
    .ok w

/-- The writer.Writer interface value returned by writer.New: one of the
two concrete variants. -/
inductive Sink where
  | json (w : JSONWriter)
  | ndjson (w : NDJSONWriter)
deriving DecidableEq, Repr

/-- writer/writer.go New: dispatch on the format string; empty path means
standard output (the WithOutput constructors); an unrecognized format is
a construction-time error. -/
def Writer.New (writable : String → Bool) (format path : String) (append : Bool) :
    Except GoError Sink :=
  if format = "json" then
    if path = "" then .ok (.json NewJSONWriterWithOutput)
    else (NewJSONWriter path).map .json
  else if format = "ndjson" then
    if path = "" then .ok (.ndjson NewNDJSONWriterWithOutput)
    else (NewNDJSONWriter writable path append).map .ndjson
  else
    .error ⟨"unsupported format: " ++ format⟩

/-- fetcher.go New: builds the transport client (pure construction, no
remote call is made) and then the writer; a writer construction error
aborts Fetcher construction, so Fetch — the only place remote calls
happen — is never entered. This function takes no remote collaborator at
all, so no remote call can occur during construction. -/
def FetcherNew (writable : String → Bool) (format path : String) (append : Bool) :
    Except GoError Sink :=
  match Writer.New writable format path append with
  | .error e => .error ⟨"failed to create writer: " ++ e.msg⟩
  | .ok w => .ok w

/-! ## The fetch loop (internal/fetcher/fetcher.go)

The remote collaborator, the cancellation signal and the sink's error
behavior are oracles in a LoopEnv, indexed by counters that the run
threads through: `calls` counts remote calls, `obs` counts the selects
that consult ctx.Done() (the top-of-loop check and each backoff-wait
select, in program order), `writes` counts WritePage calls. The run
produces a trace of events plus the returned Go error; `tag` records
which return statement of Fetch was taken. -/

/-- One page as Fetch sees it: resp.GetData() and the
meta.page.after chain (none when any of GetMetaOk / GetPageOk /
GetAfterOk reports absent; the loop then leaves newCursor = ""). -/
structure Page where
  data : List Record
  after : Option String
deriving DecidableEq, Repr

/-- What one call to fetchPage (the remote ListLogsGet) returns. -/
structure RemoteResult where
  page : Page
  httpResp : Option HttpResponse
  err : Option GoError
deriving DecidableEq, Repr

/-- The environment of one Fetch run (see section header). `finalizeErr`
is what the sink's Finalize returns; `now` the wall clock for the
Retry-After date form. -/
structure LoopEnv where
  remote : Nat → RemoteResult
  cancelled : Nat → Bool
  writeErr : Nat → Option GoError
  finalizeErr : Option GoError
  now : Int

/-- Oracle indices consumed so far. -/
structure Counters where
  calls : Nat
  obs : Nat
  writes : Nat
deriving DecidableEq, Repr

/-- Observable actions of a Fetch run, in order. Narration to errOut is
dropped except the cancellation resume message, which is the carrier of
the resume cursor. -/
inductive Event where
  | remoteCall (cursor : String)
  | waited (d : Int)
  | wrotePage (recs : List Record)
  | finalized
  | closed
  | cancelMsg (cursor : String)
deriving DecidableEq, Repr

/-- ctx.Err() once the context is cancelled. -/
def contextCanceled : GoError := ⟨"context canceled"⟩

/-- The two error return sites of fetchPageWithRetry: the ctx.Done arm
of the backoff select, and the denied-retry terminal error. -/
inductive FetchPageErr where
  | ctxDone
  | terminal (e : GoError)
deriving DecidableEq, Repr

/-- fetcher.go fetchPageWithRetry from a given attempt number: call
fetchPage, classify, return the page when the classification is nil; on
a denied retry return the formatted terminal error; on a granted retry
increment attempt, then the select either observes ctx.Done (returning
ctx.Err() with the rest of the wait skipped) or completes the backoff
wait and loops. -/
def fetchPageWithRetryGo (env : LoopEnv) (cursor : String) (attempt : Nat)
    (c : Counters) (evs : List Event) :
    Except FetchPageErr Page × Counters × List Event :=
  let r := env.remote c.calls
  let c1 : Counters := { c with calls := c.calls + 1 }
  let evs1 := evs ++ [Event.remoteCall cursor]
  match ClassifyError env.now r.err r.httpResp with
  | none => (.ok r.page, c1, evs1)
  | some cls =>
    if hsr : (ShouldRetry attempt (some cls)).1 = true then
      let backoff := (ShouldRetry attempt (some cls)).2
      let c2 : Counters := { c1 with obs := c1.obs + 1 }
      if env.cancelled c1.obs then
        (.error .ctxDone, c2, evs1)
      else
        fetchPageWithRetryGo env cursor (attempt + 1) c2 (evs1 ++ [Event.waited backoff])
    else
      (.error (.terminal (FormatRetryError r.err r.httpResp)), c1, evs1)
termination_by maxRetries - attempt
decreasing_by
  simp only [ShouldRetry] at hsr
  split_ifs at hsr <;> simp_all <;> omega

/-- fetcher.go fetchPageWithRetry: the loop starts at attempt 0. -/
def fetchPageWithRetry (env : LoopEnv) (cursor : String) (c : Counters)
    (evs : List Event) : Except FetchPageErr Page × Counters × List Event :=
  fetchPageWithRetryGo env cursor 0 c evs

/-- Which return statement of Fetch ended the run. outOfFuel is a model
artifact: the unrolling budget ran out before the Go loop decided. -/
inductive Tag where
  | done
  | cancelledPre
  | cancelledWait
  | failedFetch
  | failedWrite
  | outOfFuel
deriving DecidableEq, Repr

/-- The observable outcome of a Fetch run. `cursor`, `totalLogs` and
`pageCount` are the Go locals at the return point. -/
structure FetchRun where
  events : List Event
  result : Option GoError
  tag : Tag
  cursor : String
  totalLogs : Nat
  pageCount : Nat
deriving DecidableEq, Repr

/-- fetcher.go Fetch, the for-loop: check ctx.Done (on cancellation,
print the resume message with the current cursor, call Finalize and
return its error); fetch the page with retry (propagating its error);
WritePage (wrapping its error); update the counts; compute newCursor
from the page meta; break when newCursor is empty or the page was
empty, then Finalize; else continue from newCursor. -/
def fetchLoop (env : LoopEnv) (fuel : Nat) (cursor : String)
    (totalLogs pageCount : Nat) (c : Counters) (evs : List Event) : FetchRun :=
  match fuel with
  | 0 =>
    { events := evs, result := none, tag := .outOfFuel,
      cursor := cursor, totalLogs := totalLogs, pageCount := pageCount }
  | fuel + 1 =>
    if env.cancelled c.obs then
      { events := evs ++ [.cancelMsg cursor, .finalized],
        result := env.finalizeErr, tag := .cancelledPre,
        cursor := cursor, totalLogs := totalLogs, pageCount := pageCount }
    else
      match fetchPageWithRetry env cursor { c with obs := c.obs + 1 } evs with
      | (.error .ctxDone, _, evs2) =>
        { events := evs2, result := some contextCanceled, tag := .cancelledWait,
          cursor := cursor, totalLogs := totalLogs, pageCount := pageCount }
      | (.error (.terminal e), _, evs2) =>
        { events := evs2, result := some e, tag := .failedFetch,
          cursor := cursor, totalLogs := totalLogs, pageCount := pageCount }
      | (.ok page, c2, evs2) =>
        match env.writeErr c2.writes with
        | some we =>
          { events := evs2,
            result := some ⟨"failed to write page: " ++ we.msg⟩, tag := .failedWrite,
            cursor := cursor, totalLogs := totalLogs, pageCount := pageCount }
        | none =>
          let c3 : Counters := { c2 with writes := c2.writes + 1 }
          let evs3 := evs2 ++ [Event.wrotePage page.data]
          let totalLogs1 := totalLogs + page.data.length
          let pageCount1 := pageCount + 1
          let newCursor := (page.after).getD ""
          if newCursor = "" ∨ page.data.length = 0 then
            { events := evs3 ++ [Event.finalized], result := env.finalizeErr,
              tag := .done, cursor := cursor,
              totalLogs := totalLogs1, pageCount := pageCount1 }
          else
            fetchLoop env fuel newCursor totalLogs1 pageCount1 c3 evs3

/-- fetcher.go Fetch: defer writer.Close() (its error is discarded),
print the session header (dropped), then run the loop from the
configured cursor with zero counts and fresh oracle counters. The
deferred Close runs exactly once on every return path, hence is
appended unconditionally. -/
def Fetch (env : LoopEnv) (fuel : Nat) (initialCursor : String) : FetchRun :=
  let run := fetchLoop env fuel initialCursor 0 0 ⟨0, 0, 0⟩ []
  { run with events := run.events ++ [Event.closed] }

/-- The cursors of the remote calls in a trace, in order. -/
def remoteCursors (evs : List Event) : List String :=
  evs.filterMap fun e =>
    match e with
    | .remoteCall cur => some cur
    | _ => none

/-- How often an event occurs in a trace. -/
def countEvent (x : Event) (evs : List Event) : Nat :=
  (evs.filter fun e => e = x).length

/-- Folding a sequence of WritePage calls over the buffering sink. -/
def writePages (w : JSONWriter) (pages : List (List Record)) : JSONWriter :=
  pages.foldl JSONWriter.WritePage w

/-! ## Scripted collaborators (the scenarios of spec section 8) -/

/-- Page 1 of the two-page script: 2 records, continuation cursor C2. -/
def page1 : Page := { data := [⟨1⟩, ⟨2⟩], after := some "C2" }

/-- Page 2 of the two-page script: 1 record, no continuation cursor. -/
def page2 : Page := { data := [⟨3⟩], after := none }

/-- The scripted two-page remote collaborator: call 0 answers page1,
every later call answers page2; no cancellation, a sink that never
fails. -/
def scriptEnv : LoopEnv :=
  { remote := fun n =>
      if n = 0 then { page := page1, httpResp := none, err := none }
      else { page := page2, httpResp := none, err := none },
    cancelled := fun _ => false,
    writeErr := fun _ => none,
    finalizeErr := none,
    now := 0 }

/-- A remote that always fails with a retryable 500, and a cancellation
signal that becomes observable at observation index 1 — the backoff-wait
select of the first retry (index 0 is the top-of-loop check). -/
def cancelWaitEnv : LoopEnv :=
  { remote := fun _ =>
      { page := ⟨[], none⟩, httpResp := some ⟨500, .absent⟩, err := some ⟨"boom"⟩ },
    cancelled := fun i => i = 1,
    writeErr := fun _ => none,
    finalizeErr := none,
    now := 0 }

/-- A remote that always fails with a non-retryable 400; no
cancellation. -/
def failEnv : LoopEnv :=
  { remote := fun _ =>
      { page := ⟨[], none⟩, httpResp := some ⟨400, .absent⟩, err := some ⟨"bad"⟩ },
    cancelled := fun _ => false,
    writeErr := fun _ => none,
    finalizeErr := none,
    now := 0 }

/-- An environment whose cancellation signal is already observable at the
very first observation point (before any remote call). -/
def cancelPreEnv : LoopEnv :=
  { remote := fun _ =>
      { page := ⟨[], none⟩, httpResp := none, err := none },
    cancelled := fun _ => true,
    writeErr := fun _ => none,
    finalizeErr := none,
    now := 0 }

end Dogfetch

namespace Dogfetch

/-- C3: ShouldRetry denies the retry when the classification is absent
or not retryable, and when the attempt number has reached maxRetries
regardless of retryability; otherwise it grants the retry with the
classification's minimum delay when that is present and positive, else
exactly 1 second times 2 to the attempt number, with no jitter; the
exponential table runs 1s, 2s, 4s, 8s. -/
theorem shouldRetry_spec :
    (∀ n : Nat, ShouldRetry n none = (false, 0))
    ∧ (∀ (n : Nat) (e : RetryableError), e.retryable = false →
        ShouldRetry n (some e) = (false, 0))
    ∧ (∀ (n : Nat) (e : RetryableError), n ≥ maxRetries →
        ShouldRetry n (some e) = (false, 0))
    ∧ (∀ (n : Nat) (e : RetryableError), e.retryable = true → n < maxRetries →
        e.retryAfter > 0 → ShouldRetry n (some e) = (true, e.retryAfter))
    ∧ (∀ (n : Nat) (e : RetryableError), e.retryable = true → n < maxRetries →
        ¬ e.retryAfter > 0 → ShouldRetry n (some e) = (true, second * 2 ^ n))
    ∧ ExponentialBackoff 0 = second ∧ ExponentialBackoff 1 = 2 * second
    ∧ ExponentialBackoff 2 = 4 * second ∧ ExponentialBackoff 3 = 8 * second := by
  refine ⟨fun n => rfl, ?_, ?_, ?_, ?_, by decide, by decide, by decide, by decide⟩
  · intro n e h
    simp [ShouldRetry, h]
  · intro n e h
    unfold ShouldRetry
    split_ifs <;> simp_all
  · intro n e h1 h2 h3
    unfold ShouldRetry
    split_ifs <;> simp_all <;> omega
  · intro n e h1 h2 h3
    unfold ShouldRetry
    split_ifs <;> simp_all [ExponentialBackoff, baseBackoff] <;> omega

/-- C3 witness: a retryable classification at attempt 1 with no minimum
delay gets the exact 2-second exponential delay. -/
theorem shouldRetry_spec_witness :
    ShouldRetry 1 (some ⟨⟨"temporary error"⟩, true, 0⟩) = (true, second * 2 ^ 1) :=
  shouldRetry_spec.2.2.2.2.1 1 ⟨⟨"temporary error"⟩, true, 0⟩ rfl (by decide) (by decide)

/-- C5: ClassifyError returns no classification exactly for a nil error;
a non-nil error with no response at all is retryable; statuses 500, 502,
503, 504 are retryable; 400, 401, 403, 404 are not; and a status with no
dedicated rule (not 429 and not one of the listed codes) is retryable
exactly when it is at least 500. -/
theorem classifyError_spec :
    (∀ (now : Int) (err : Option GoError) (resp : Option HttpResponse),
        ClassifyError now err resp = none ↔ err = none)
    ∧ (∀ (now : Int) (e : GoError),
        ClassifyError now (some e) none = some ⟨e, true, 0⟩)
    ∧ (∀ (now : Int) (e : GoError) (r : HttpResponse),
        r.statusCode = 500 ∨ r.statusCode = 502 ∨ r.statusCode = 503 ∨ r.statusCode = 504 →
        ∃ cls, ClassifyError now (some e) (some r) = some cls ∧ cls.retryable = true)
    ∧ (∀ (now : Int) (e : GoError) (r : HttpResponse),
        r.statusCode = 400 ∨ r.statusCode = 401 ∨ r.statusCode = 403 ∨ r.statusCode = 404 →
        ∃ cls, ClassifyError now (some e) (some r) = some cls ∧ cls.retryable = false)
    ∧ (∀ (now : Int) (e : GoError) (r : HttpResponse),
        r.statusCode ∉ ([429, 400, 401, 403, 404, 500, 502, 503, 504] : List Int) →
        ∃ cls, ClassifyError now (some e) (some r) = some cls
          ∧ (cls.retryable = true ↔ r.statusCode ≥ 500)) := by
  refine ⟨?_, fun now e => rfl, ?_, ?_, ?_⟩
  · intro now err resp
    cases err with
    | none => simp [ClassifyError]
    | some e =>
      cases resp with
      | none => simp [ClassifyError]
      | some r => simp [ClassifyError]; split_ifs <;> simp
  · intro now e r h
    refine ⟨⟨e, true, 0⟩, ?_, rfl⟩
    simp [ClassifyError]
    split_ifs with h1 h2 <;> simp_all <;> omega
  · intro now e r h
    refine ⟨⟨e, false, 0⟩, ?_, rfl⟩
    simp [ClassifyError]
    split_ifs with h1 h2 h3 <;> simp_all <;> try omega
  · intro now e r h
    simp at h
    by_cases h5 : r.statusCode ≥ 500
    · refine ⟨⟨e, true, 0⟩, ?_, by simp [h5]⟩
      simp [ClassifyError]
      split_ifs <;> simp_all
    · refine ⟨⟨e, false, 0⟩, ?_, by simp [h5]⟩
      simp [ClassifyError]
      split_ifs <;> simp_all

/-- C5 witness: a 503 classifies as retryable. -/
theorem classifyError_spec_witness :
    ∃ cls, ClassifyError 0 (some ⟨"service unavailable"⟩) (some ⟨503, .absent⟩) = some cls
      ∧ cls.retryable = true :=
  classifyError_spec.2.2.1 0 ⟨"service unavailable"⟩ ⟨503, .absent⟩ (by decide)

/-- C4 counterexample: with status 429 and an unparseable Retry-After
header the classification's delay is the 60-second fallback — present,
not absent — so ShouldRetry uses those 60 seconds, not the 1-second
exponential backoff the claim predicts. -/
theorem classify429_unparseable_counterexample :
    ClassifyError 0 (some ⟨"rate limited"⟩) (some ⟨429, .unparseable⟩)
      = some ⟨⟨"rate limited"⟩, true, rateLimitWait⟩
    ∧ ShouldRetry 0 (ClassifyError 0 (some ⟨"rate limited"⟩) (some ⟨429, .unparseable⟩))
      = (true, rateLimitWait)
    ∧ rateLimitWait ≠ ExponentialBackoff 0 :=
  ⟨rfl, rfl, by decide⟩

/-- C4 amended: a failed 429 call is retryable, with minimum delay the
Retry-After header's parsed value when the header is parseable
(integer-seconds form, or HTTP calendar-date form as that date minus
now) and that value is nonzero; when the header is absent, unparseable,
or parses to exactly zero, the delay is the fixed 60-second fallback —
so an unparseable header does not leave the delay absent. The caller
reaches exponential backoff only when the kept delay is not positive,
as with a calendar date in the past (negative delay, kept as-is). -/
theorem classify429_amended :
    (∀ (now : Int) (e : GoError) (r : HttpResponse), r.statusCode = 429 →
      (r.retryAfter = .absent ∨ r.retryAfter = .unparseable →
        ClassifyError now (some e) (some r) = some ⟨e, true, rateLimitWait⟩)
      ∧ (∀ n : Int, r.retryAfter = .seconds n →
        ClassifyError now (some e) (some r)
          = some ⟨e, true, if n = 0 then rateLimitWait else n * second⟩)
      ∧ (∀ t : Int, r.retryAfter = .httpDate t →
        ClassifyError now (some e) (some r)
          = some ⟨e, true, if t = now then rateLimitWait else t - now⟩))
    ∧ (∀ (now : Int) (e : GoError) (r : HttpResponse) (t : Int) (attempt : Nat),
        r.statusCode = 429 → r.retryAfter = .httpDate t → t < now →
        attempt < maxRetries →
        ShouldRetry attempt (ClassifyError now (some e) (some r))
          = (true, ExponentialBackoff attempt)) := by
  constructor
  · rintro now e ⟨sc, ra⟩ hsc
    simp only at hsc
    subst hsc
    refine ⟨?_, ?_, ?_⟩
    · rintro (h | h) <;> subst h <;>
        simp [ClassifyError, parseRetryAfter, rateLimitWait]
    · rintro n h
      subst h
      by_cases hn : n = 0
      · subst hn
        simp [ClassifyError, parseRetryAfter]
      · have hnz : n * second ≠ 0 := by
          intro hc
          rcases mul_eq_zero.mp hc with h | h
          · exact hn h
          · exact absurd h (by decide)
        simp [ClassifyError, parseRetryAfter, hn, hnz]
    · rintro t h
      subst h
      by_cases ht : t = now
      · subst ht
        simp [ClassifyError, parseRetryAfter]
      · have hnz : t - now ≠ 0 := sub_ne_zero_of_ne ht
        simp [ClassifyError, parseRetryAfter, ht, hnz]
  · rintro now e ⟨sc, ra⟩ t attempt hsc hra hlt hatt
    simp only at hsc hra
    subst hsc
    subst hra
    have hnz : t - now ≠ 0 := sub_ne_zero_of_ne (by omega)
    have hcls : ClassifyError now (some e) (some ⟨429, .httpDate t⟩)
        = some ⟨e, true, t - now⟩ := by
      simp [ClassifyError, parseRetryAfter, hnz]
    rw [hcls]
    unfold ShouldRetry
    have hnp : ¬ t - now > 0 := by omega
    simp [hnp, Nat.not_le.mpr hatt]

/-- C4 witness: header Retry-After 60 yields the 60-second delay, and a
past calendar date (date 40 against now 100) leaves a negative delay so
ShouldRetry at attempt 0 grants the retry with the 1-second exponential
backoff. -/
theorem classify429_amended_witness :
    ClassifyError 0 (some ⟨"rate limited"⟩) (some ⟨429, .seconds 60⟩)
      = some ⟨⟨"rate limited"⟩, true, 60 * second⟩
    ∧ ShouldRetry 0 (ClassifyError 100 (some ⟨"rate limited"⟩) (some ⟨429, .httpDate 40⟩))
      = (true, ExponentialBackoff 0) :=
  ⟨(classify429_amended.1 0 ⟨"rate limited"⟩ ⟨429, .seconds 60⟩ rfl).2.1 60 rfl,
   classify429_amended.2 100 ⟨"rate limited"⟩ ⟨429, .httpDate 40⟩ 40 0 rfl rfl
     (by decide) (by decide)⟩

/-- Helper: writePages folds the pages into the buffered state. -/
theorem writePages_state (pages : List (List Record)) :
    ∀ w : JSONWriter,
      (writePages w pages).logs = w.logs ++ pages.join
      ∧ (writePages w pages).pageCount = w.pageCount + pages.length
      ∧ (writePages w pages).hasOutput = w.hasOutput
      ∧ (writePages w pages).path = w.path := by
  induction pages with
  | nil =>
    intro w
    simp [writePages]
  | cons p ps ih =>
    intro w
    have h := ih (w.WritePage p)
    simpa [writePages, JSONWriter.WritePage, List.foldl, Nat.add_assoc, Nat.add_comm,
      Nat.add_left_comm] using h

/-- C7: for the buffering sink, any sequence of writePage calls followed
by finalize yields exactly one write of a composite document whose
record list is the in-order concatenation of all pages and whose
metadata reports the total record count and the number of writePage
calls; in particular pages of 2 then 3 records give total 5, pages 2. -/
theorem json_buffering_spec :
    (∀ (w0 : JSONWriter) (createOk : String → Bool) (pages : List (List Record)),
      w0.logs = [] → w0.pageCount = 0 →
      (w0.hasOutput = true ∨ createOk w0.path = true) →
      (writePages w0 pages).Finalize createOk
        = .ok ⟨pages.join, pages.join.length, pages.length⟩)
    ∧ (writePages NewJSONWriterWithOutput [[⟨1⟩, ⟨2⟩], [⟨3⟩, ⟨4⟩, ⟨5⟩]]).Finalize (fun _ => false)
        = .ok ⟨[⟨1⟩, ⟨2⟩, ⟨3⟩, ⟨4⟩, ⟨5⟩], 5, 2⟩ := by
  constructor
  · intro w0 createOk pages hlogs hpc hout
    obtain ⟨h1, h2, h3, h4⟩ := writePages_state pages w0
    unfold JSONWriter.Finalize
    rcases hout with hout | hout
    · rw [h3, hout]
      simp [h1, h2, hlogs, hpc]
    · rw [h3, h4]
      rcases hw : w0.hasOutput <;> simp [hout, h1, h2, hlogs, hpc]
  · rfl

/-- C7 witness: pages of 1 and 2 records finalize to total 3, pages 2. -/
theorem json_buffering_spec_witness :
    (writePages NewJSONWriterWithOutput [[⟨1⟩], [⟨2⟩, ⟨3⟩]]).Finalize (fun _ => true)
      = .ok ⟨[⟨1⟩, ⟨2⟩, ⟨3⟩], 3, 2⟩ :=
  json_buffering_spec.1 NewJSONWriterWithOutput (fun _ => true) [[⟨1⟩], [⟨2⟩, ⟨3⟩]]
    rfl rfl (Or.inl rfl)

/-- C8 counterexample: with a file system in which no destination can be
opened for writing, constructing the buffering (json) sink still
succeeds — construction does not fail on an unwritable destination. -/
theorem sink_construction_counterexample :
    Writer.New (fun _ => false) "json" "/logs/out.json" false
      = .ok (.json { path := "/logs/out.json", hasOutput := false, logs := [],
                     pageCount := 0, shouldClose := true }) :=
  rfl

/-- C8 amended: an unsupported format string always fails sink
construction (and Fetcher construction, which takes no remote
collaborator, so no remote call can have been issued); an unwritable
destination fails construction for the streaming (ndjson) sink; the
buffering (json) sink constructs successfully and its unwritable
destination surfaces only when finalize tries to create the file. -/
theorem sink_construction_amended :
    (∀ (writable : String → Bool) (format path : String) (append : Bool),
      format ≠ "json" → format ≠ "ndjson" →
      Writer.New writable format path append = .error ⟨"unsupported format: " ++ format⟩
      ∧ FetcherNew writable format path append
          = .error ⟨"failed to create writer: " ++ ("unsupported format: " ++ format)⟩)
    ∧ (∀ (writable : String → Bool) (path : String) (append : Bool),
        path ≠ "" → writable path = false →
        Writer.New writable "ndjson" path append = .error ⟨"open failed"⟩
        ∧ FetcherNew writable "ndjson" path append
            = .error ⟨"failed to create writer: " ++ "open failed"⟩)
    ∧ (∀ (writable createOk : String → Bool) (path : String) (append : Bool),
        path ≠ "" → createOk path = false →
        Writer.New writable "json" path append
          = .ok (.json { path := path, hasOutput := false, logs := [],
                         pageCount := 0, shouldClose := true })
        ∧ JSONWriter.Finalize createOk
            { path := path, hasOutput := false, logs := [], pageCount := 0, shouldClose := true }
            = .error ⟨"create failed"⟩) := by
  refine ⟨?_, ?_, ?_⟩
  · intro writable format path append h1 h2
    constructor
    · simp [Writer.New, h1, h2]
    · simp [FetcherNew, Writer.New, h1, h2]
  · intro writable path append h1 h2
    constructor
    · simp [Writer.New, NewNDJSONWriter, h1, h2, Except.map]
    · simp [FetcherNew, Writer.New, NewNDJSONWriter, h1, h2, Except.map]
  · intro writable createOk path append h1 h2
    constructor
    · simp [Writer.New, NewJSONWriter, h1, Except.map]
    · simp [JSONWriter.Finalize, h2]

/-- C8 witness: format xml is rejected at construction. -/
theorem sink_construction_amended_witness :
    Writer.New (fun _ => true) "xml" "/logs/out" false
      = .error ⟨"unsupported format: " ++ "xml"⟩ :=
  (sink_construction_amended.1 (fun _ => true) "xml" "/logs/out" false
    (by decide) (by decide)).1

/-- C9 counterexample: for the file-backed streaming sink, a first close
succeeds but a second close returns the file's already-closed error —
close is not idempotent for that variant. -/
theorem close_idempotence_counterexample :
    NewNDJSONWriter (fun _ => true) "/logs/out.ndjson" false
      = .ok { hasCloser := true, shouldClose := true, fileClosed := false, written := [] }
    ∧ NDJSONWriter.Close
        { hasCloser := true, shouldClose := true, fileClosed := false, written := [] }
      = .ok { hasCloser := true, shouldClose := true, fileClosed := true, written := [] }
    ∧ NDJSONWriter.Close
        { hasCloser := true, shouldClose := true, fileClosed := true, written := [] }
      = .error errFileClosed :=
  ⟨rfl, rfl, rfl⟩

/-- C9 amended: close is a no-op (hence idempotent and safe on a
never-written sink) for the buffering sink and for streaming sinks over
a provided writer; for the file-backed streaming sink the first close
succeeds even when nothing was written, and a second close returns the
underlying file's already-closed error. -/
theorem close_amended :
    (∀ w : JSONWriter, w.Close = .ok w)
    ∧ (∀ w : NDJSONWriter, w.shouldClose = false ∨ w.hasCloser = false →
        w.Close = .ok w)
    ∧ (∀ w : NDJSONWriter, w.hasCloser = true → w.shouldClose = true → w.fileClosed = false →
        w.Close = .ok { w with fileClosed := true }
        ∧ NDJSONWriter.Close { w with fileClosed := true } = .error errFileClosed) := by
  refine ⟨fun w => rfl, ?_, ?_⟩
  · intro w h
    rcases h with h | h <;> simp [NDJSONWriter.Close, h]
  · intro w h1 h2 h3
    constructor
    · simp [NDJSONWriter.Close, h1, h2, h3]
    · simp [NDJSONWriter.Close, h1, h2]

/-- C9 witness: the provided-writer streaming sink closes as a no-op. -/
theorem close_amended_witness :
    NDJSONWriter.Close { hasCloser := false, shouldClose := false, fileClosed := false, written := [] }
      = .ok { hasCloser := false, shouldClose := false, fileClosed := false, written := [] } :=
  close_amended.2.1 { hasCloser := false, shouldClose := false, fileClosed := false, written := [] }
    (Or.inl rfl)

/-- A granted retry implies the attempt counter was below maxRetries. -/
theorem shouldRetry_fst_imp_lt {a : Nat} {e : RetryableError}
    (h : (ShouldRetry a (some e)).1 = true) : a < maxRetries := by
  unfold ShouldRetry at h
  split_ifs at h <;> simp_all

/-- countEvent distributes over trace concatenation. -/
theorem countEvent_append (x : Event) (l1 l2 : List Event) :
    countEvent x (l1 ++ l2) = countEvent x l1 + countEvent x l2 := by
  simp [countEvent, List.filter_append]

/-- A trace whose members all differ from x contains no x. -/
theorem countEvent_eq_zero {x : Event} {l : List Event} (h : ∀ e ∈ l, e ≠ x) :
    countEvent x l = 0 := by
  simp only [countEvent, List.length_eq_zero]
  refine List.filter_eq_nil.mpr ?_
  intro e he
  simpa using h e he

/-- Trace shape of one fetchPageWithRetry run: it appends one remote call
with the given cursor, followed only by further remote calls with the
same cursor and backoff waits — never a sink event. -/
theorem fetchPageWithRetryGo_trace (env : LoopEnv) (cursor : String) :
    ∀ (k attempt : Nat) (c : Counters) (evs : List Event), maxRetries - attempt ≤ k →
      ∃ tail, (fetchPageWithRetryGo env cursor attempt c evs).2.2
          = evs ++ Event.remoteCall cursor :: tail
        ∧ ∀ e ∈ tail, e = Event.remoteCall cursor ∨ ∃ d, e = Event.waited d := by
  intro k
  induction k with
  | zero =>
    intro attempt c evs hk
    rw [fetchPageWithRetryGo]
    split
    · exact ⟨[], by simp, by simp⟩
    · rw [dif_neg]
      · exact ⟨[], by simp, by simp⟩
      · intro hsr
        have := shouldRetry_fst_imp_lt hsr
        omega
  | succ k ih =>
    intro attempt c evs hk
    rw [fetchPageWithRetryGo]
    split
    · exact ⟨[], by simp, by simp⟩
    · rename_i cls hcls
      by_cases hsr : (ShouldRetry attempt (some cls)).1 = true
      · rw [dif_pos hsr]
        split
        · exact ⟨[], by simp, by simp⟩
        · obtain ⟨tail, htail, hall⟩ :=
            ih (attempt + 1) { c with calls := c.calls + 1, obs := c.obs + 1 }
              ((evs ++ [Event.remoteCall cursor]) ++ [Event.waited (ShouldRetry attempt (some cls)).2])
              (by have := shouldRetry_fst_imp_lt hsr; omega)
          refine ⟨Event.waited (ShouldRetry attempt (some cls)).2
              :: Event.remoteCall cursor :: tail, ?_, ?_⟩
          · rw [htail]
            simp
          · intro e he
            rcases List.mem_cons.mp he with he | he
            · exact Or.inr ⟨_, he⟩
            · rcases List.mem_cons.mp he with he | he
              · exact Or.inl he
              · exact hall e he
      · rw [dif_neg hsr]
        exact ⟨[], by simp, by simp⟩

/-- fetchPageWithRetry adds no event other than remote calls and waits. -/
theorem fetchPageWithRetry_counts (env : LoopEnv) (cursor : String) (c : Counters)
    (evs : List Event) (x : Event)
    (hx1 : ∀ cur, x ≠ Event.remoteCall cur) (hx2 : ∀ d, x ≠ Event.waited d) :
    countEvent x (fetchPageWithRetry env cursor c evs).2.2 = countEvent x evs := by
  obtain ⟨tail, ht, hall⟩ :=
    fetchPageWithRetryGo_trace env cursor maxRetries 0 c evs (Nat.sub_le _ _)
  simp only [fetchPageWithRetry]
  rw [ht, countEvent_append]
  have hz : countEvent x (Event.remoteCall cursor :: tail) = 0 := by
    refine countEvent_eq_zero ?_
    intro e he
    rcases List.mem_cons.mp he with he | he
    · subst he
      exact Ne.symm (hx1 cursor)
    · rcases hall e he with h | ⟨d, h⟩
      · subst h
        exact Ne.symm (hx1 cursor)
      · subst h
        exact Ne.symm (hx2 d)
  omega

/-- The loop appends one finalized event exactly on the done and
pre-call-cancellation paths, and never a closed event. -/
theorem fetchLoop_sink_counts (env : LoopEnv) :
    ∀ (fuel : Nat) (cursor : String) (tl pc : Nat) (c : Counters) (evs : List Event),
      countEvent Event.finalized (fetchLoop env fuel cursor tl pc c evs).events
        = countEvent Event.finalized evs
          + (if (fetchLoop env fuel cursor tl pc c evs).tag = Tag.done
              ∨ (fetchLoop env fuel cursor tl pc c evs).tag = Tag.cancelledPre then 1 else 0)
      ∧ countEvent Event.closed (fetchLoop env fuel cursor tl pc c evs).events
        = countEvent Event.closed evs := by
  intro fuel
  induction fuel with
  | zero =>
    intro cursor tl pc c evs
    simp [fetchLoop]
  | succ fuel ih =>
    intro cursor tl pc c evs
    rcases hfp : fetchPageWithRetry env cursor { c with obs := c.obs + 1 } evs
      with ⟨res, c2, evs2⟩
    have hfin := fetchPageWithRetry_counts env cursor { c with obs := c.obs + 1 } evs
      Event.finalized (by intro cur h; exact Event.noConfusion h)
      (by intro d h; exact Event.noConfusion h)
    have hcl := fetchPageWithRetry_counts env cursor { c with obs := c.obs + 1 } evs
      Event.closed (by intro cur h; exact Event.noConfusion h)
      (by intro d h; exact Event.noConfusion h)
    rw [hfp] at hfin hcl
    simp only at hfin hcl
    by_cases hcanc : env.cancelled c.obs = true
    · constructor
      · simp only [fetchLoop, if_pos hcanc]
        rw [countEvent_append]
        simp [countEvent]
      · simp only [fetchLoop, if_pos hcanc]
        rw [countEvent_append]
        simp [countEvent]
    · rcases res with err | page
      · rcases err with _ | e
        · simp only [fetchLoop, if_neg hcanc, hfp]
          constructor
          · rw [hfin]
            simp
          · exact hcl
        · simp only [fetchLoop, if_neg hcanc, hfp]
          constructor
          · rw [hfin]
            simp
          · exact hcl
      · rcases hw : env.writeErr c2.writes with _ | we
        · by_cases hcond : (page.after).getD "" = "" ∨ page.data.length = 0
          · simp only [fetchLoop, if_neg hcanc, hfp, hw, if_pos hcond]
            constructor
            · rw [countEvent_append, countEvent_append, hfin]
              simp [countEvent]
            · rw [countEvent_append, countEvent_append, hcl]
              simp [countEvent]
          · simp only [fetchLoop, if_neg hcanc, hfp, hw, if_neg hcond]
            obtain ⟨ih1, ih2⟩ := ih ((page.after).getD "") (tl + page.data.length) (pc + 1)
              { c2 with writes := c2.writes + 1 } (evs2 ++ [Event.wrotePage page.data])
            constructor
            · rw [ih1, countEvent_append, hfin]
              simp [countEvent]
            · rw [ih2, countEvent_append, hcl]
              simp [countEvent]
        · simp only [fetchLoop, if_neg hcanc, hfp, hw]
          constructor
          · rw [hfin]
            simp
          · exact hcl

/-- C10: on every run of Fetch — whatever the exit path: success,
cancellation, page-write failure or terminal fetch failure — the
deferred Close on the sink runs exactly once, as the last action. -/
theorem fetch_close_every_path :
    ∀ (env : LoopEnv) (fuel : Nat) (cursor : String),
      countEvent Event.closed (Fetch env fuel cursor).events = 1
      ∧ (Fetch env fuel cursor).events.getLast? = some Event.closed := by
  intro env fuel cursor
  have h := (fetchLoop_sink_counts env fuel cursor 0 0 ⟨0, 0, 0⟩ []).2
  constructor
  · simp only [Fetch, countEvent_append, h]
    simp [countEvent]
  · simp [Fetch]

/-- C6 counterexample: a run whose first remote call fails with a
non-retryable 400 ends the loop early with an error and finalize() is
never called, against the claim that finalize() runs exactly once after
the loop ends regardless of error status. -/
theorem fetch_finalize_counterexample :
    (Fetch failEnv 1 "").tag = Tag.failedFetch
    ∧ (Fetch failEnv 1 "").result
        = some (FormatRetryError (some ⟨"bad"⟩) (some ⟨400, .absent⟩))
    ∧ countEvent Event.finalized (Fetch failEnv 1 "").events = 0 := by
  refine ⟨?_, ?_, ?_⟩ <;>
    simp [Fetch, fetchLoop, fetchPageWithRetry, fetchPageWithRetryGo, failEnv,
      ClassifyError, ShouldRetry, maxRetries, countEvent]

/-- C6 amended: the sink's finalize() is called exactly once when the
loop ends in DONE (termination condition met) or in pre-call
cancellation, and zero times on the failure exits — terminal fetch
error, page-write failure, or cancellation during a backoff wait. -/
theorem fetch_finalize_amended :
    ∀ (env : LoopEnv) (fuel : Nat) (cursor : String),
      countEvent Event.finalized (Fetch env fuel cursor).events
        = if (Fetch env fuel cursor).tag = Tag.done
            ∨ (Fetch env fuel cursor).tag = Tag.cancelledPre then 1 else 0 := by
  intro env fuel cursor
  have h := (fetchLoop_sink_counts env fuel cursor 0 0 ⟨0, 0, 0⟩ []).1
  simp only [Fetch, countEvent_append, h]
  simp [countEvent]

/-- C2 counterexample: with a remote that always fails retryably (500)
and cancellation first observable during the first backoff wait, the run
skips the wait and issues no further call, but returns the context's
cancellation error — finalize() is not called and no cancelled-result
cursor message is emitted, against the claim that both suspension points
end with finalize() and a non-error cancelled result. -/
theorem cancellation_counterexample :
    (Fetch cancelWaitEnv 1 "K").tag = Tag.cancelledWait
    ∧ (Fetch cancelWaitEnv 1 "K").result = some contextCanceled
    ∧ countEvent Event.finalized (Fetch cancelWaitEnv 1 "K").events = 0
    ∧ remoteCursors (Fetch cancelWaitEnv 1 "K").events = ["K"] := by
  refine ⟨?_, ?_, ?_, ?_⟩ <;>
    simp [Fetch, fetchLoop, fetchPageWithRetry, fetchPageWithRetryGo, cancelWaitEnv,
      ClassifyError, ShouldRetry, ExponentialBackoff, maxRetries, baseBackoff, second,
      countEvent, remoteCursors]

/-- C2 amended: cancellation observed at the pre-call point yields the
CANCELLED outcome — no remote call, finalize() called, the resume
message carrying the current cursor, and the sink's finalize result
(non-error when the sink finalizes cleanly) returned. Cancellation
observed during a retry backoff wait skips the remaining delay and
issues no further remote call, but fetchPageWithRetry returns through
its ctx.Done arm and Fetch then returns the context's cancellation
error without calling finalize(). -/
theorem cancellation_amended :
    (∀ (env : LoopEnv) (fuel : Nat) (cursor : String) (tl pc : Nat) (c : Counters)
        (evs : List Event),
      env.cancelled c.obs = true →
      fetchLoop env (fuel + 1) cursor tl pc c evs =
        { events := evs ++ [Event.cancelMsg cursor, Event.finalized],
          result := env.finalizeErr, tag := Tag.cancelledPre,
          cursor := cursor, totalLogs := tl, pageCount := pc })
    ∧ (∀ (env : LoopEnv) (cursor : String) (attempt : Nat) (c : Counters)
        (evs : List Event) (cls : RetryableError),
        ClassifyError env.now (env.remote c.calls).err (env.remote c.calls).httpResp
          = some cls →
        (ShouldRetry attempt (some cls)).1 = true →
        env.cancelled c.obs = true →
        fetchPageWithRetryGo env cursor attempt c evs =
          (.error .ctxDone, { c with calls := c.calls + 1, obs := c.obs + 1 },
            evs ++ [Event.remoteCall cursor]))
    ∧ (∀ (env : LoopEnv) (fuel : Nat) (cursor : String) (tl pc : Nat) (c : Counters)
        (evs : List Event) (c2 : Counters) (evs2 : List Event),
        env.cancelled c.obs = false →
        fetchPageWithRetry env cursor { c with obs := c.obs + 1 } evs
          = (.error .ctxDone, c2, evs2) →
        fetchLoop env (fuel + 1) cursor tl pc c evs =
          { events := evs2, result := some contextCanceled, tag := Tag.cancelledWait,
            cursor := cursor, totalLogs := tl, pageCount := pc }) := by
  refine ⟨?_, ?_, ?_⟩
  · intro env fuel cursor tl pc c evs h
    simp only [fetchLoop, if_pos h]
  · intro env cursor attempt c evs cls hcls hsr hc
    rw [fetchPageWithRetryGo]
    rw [hcls]
    simp only [dif_pos hsr, hc]
    simp
  · intro env fuel cursor tl pc c evs c2 evs2 hnc hfp
    simp only [fetchLoop, hfp]
    simp [hnc]

/-- C2 witness: with cancellation already observable before the first
call, the loop returns the cancelled outcome with the resume cursor and
one finalize, issuing no remote call. -/
theorem cancellation_amended_witness :
    fetchLoop cancelPreEnv 1 "RESUME" 0 0 ⟨0, 0, 0⟩ [] =
      { events := [Event.cancelMsg "RESUME", Event.finalized], result := none,
        tag := Tag.cancelledPre, cursor := "RESUME", totalLogs := 0, pageCount := 0 } :=
  cancellation_amended.1 cancelPreEnv 0 "RESUME" 0 0 ⟨0, 0, 0⟩ [] rfl

/-- C1: per successful page, the loop ends in DONE exactly when that
page's continuation cursor is empty or the page had zero records, and
otherwise re-enters the loop with the page's continuation cursor as the
next call's cursor; every remote call issued while fetching one page
uses that page-fetch's cursor; and the scripted two-page collaborator
yields exactly two remote calls (the second with cursor C2), 3 records
written over 2 pages, and a DONE, non-error outcome. -/
theorem pagination_spec :
    (∀ (env : LoopEnv) (fuel : Nat) (cursor : String) (tl pc : Nat) (c : Counters)
        (evs : List Event) (page : Page) (c2 : Counters) (evs2 : List Event),
      env.cancelled c.obs = false →
      fetchPageWithRetry env cursor { c with obs := c.obs + 1 } evs = (.ok page, c2, evs2) →
      env.writeErr c2.writes = none →
      ((page.after.getD "" = "" ∨ page.data.length = 0 →
         fetchLoop env (fuel + 1) cursor tl pc c evs =
           { events := evs2 ++ [Event.wrotePage page.data, Event.finalized],
             result := env.finalizeErr, tag := Tag.done, cursor := cursor,
             totalLogs := tl + page.data.length, pageCount := pc + 1 })
       ∧ (¬(page.after.getD "" = "" ∨ page.data.length = 0) →
         fetchLoop env (fuel + 1) cursor tl pc c evs =
           fetchLoop env fuel (page.after.getD "") (tl + page.data.length) (pc + 1)
             { c2 with writes := c2.writes + 1 } (evs2 ++ [Event.wrotePage page.data]))))
    ∧ (∀ (env : LoopEnv) (cursor : String) (attempt : Nat) (c : Counters) (evs : List Event),
        ∃ tail, (fetchPageWithRetryGo env cursor attempt c evs).2.2
            = evs ++ Event.remoteCall cursor :: tail
          ∧ ∀ e ∈ tail, e = Event.remoteCall cursor ∨ ∃ d, e = Event.waited d)
    ∧ remoteCursors (Fetch scriptEnv 2 "").events = ["", "C2"]
    ∧ (Fetch scriptEnv 2 "").totalLogs = 3
    ∧ (Fetch scriptEnv 2 "").pageCount = 2
    ∧ (Fetch scriptEnv 2 "").tag = Tag.done
    ∧ (Fetch scriptEnv 2 "").result = none
    ∧ (Fetch scriptEnv 2 "").events =
        [Event.remoteCall "", Event.wrotePage [⟨1⟩, ⟨2⟩], Event.remoteCall "C2",
         Event.wrotePage [⟨3⟩], Event.finalized, Event.closed] := by
  refine ⟨?_, ?_, ?_, ?_, ?_, ?_, ?_, ?_⟩
  · intro env fuel cursor tl pc c evs page c2 evs2 hnc hfp hw
    constructor
    · intro hcond
      simp only [fetchLoop, hfp, hw]
      rw [if_neg (by simp [hnc]), if_pos hcond]
      simp
    · intro hcond
      simp only [fetchLoop, hfp, hw]
      rw [if_neg (by simp [hnc]), if_neg hcond]
  · intro env cursor attempt c evs
    exact fetchPageWithRetryGo_trace env cursor maxRetries attempt c evs (Nat.sub_le _ _)
  all_goals
    simp [Fetch, fetchLoop, fetchPageWithRetry, fetchPageWithRetryGo, scriptEnv,
      page1, page2, ClassifyError, countEvent, remoteCursors]

/-- C1 witness: the scripted final page (1 record, no cursor) makes the
iteration end the loop in DONE with the page written and finalize run. -/
theorem pagination_spec_witness :
    fetchLoop scriptEnv 1 "C2" 2 1 ⟨1, 1, 1⟩ [] =
      { events := [Event.remoteCall "C2", Event.wrotePage [⟨3⟩], Event.finalized],
        result := none, tag := Tag.done, cursor := "C2", totalLogs := 3, pageCount := 2 } :=
  (pagination_spec.1 scriptEnv 0 "C2" 2 1 ⟨1, 1, 1⟩ [] page2 ⟨2, 2, 1⟩
    [Event.remoteCall "C2"] rfl
    (by simp [fetchPageWithRetry, fetchPageWithRetryGo, scriptEnv, page2, ClassifyError])
    rfl).1 (Or.inl rfl)

end Dogfetch
